import Mathlib

/-!
Shallow embedding of the construction/placement subsystem of the repository
(the `BuildingSystem` class, together with the collaborator interfaces it
calls: the scene graph, the `PhysicsWorld` wrapper and the network
transport).  JavaScript numbers are modelled as rationals (`ℚ`); timestamps
(`performance.now()` / `Date.now()`) are rationals measured in
milliseconds; calls into the external collaborators are recorded in an
explicit effect trace on the system state.
-/

/-- A three-component vector of JavaScript numbers (`THREE.Vector3`). -/
structure Vec3Q where
  x : ℚ
  y : ℚ
  z : ℚ
deriving DecidableEq

/-- Euler angles (`THREE.Euler`).  Each component stores the angle as a
rational multiple of π: the source's `Math.PI / 2` is represented by `1/2`,
and `0` by `0` (the only two angle values the subsystem ever produces). -/
structure Euler where
  x : ℚ
  y : ℚ
  z : ℚ
deriving DecidableEq

/-- An axis-aligned bounding box (`THREE.Box3`). -/
structure Box3 where
  minX : ℚ
  minY : ℚ
  minZ : ℚ
  maxX : ℚ
  maxY : ℚ
  maxZ : ℚ
deriving DecidableEq

/-- `THREE.Box3.intersectsBox`: two boxes intersect unless they are
separated along one of the three axes; boxes that merely touch count as
intersecting (the source uses strict `<` / `>` comparisons). -/
def Box3.intersects (a b : Box3) : Bool :=
  if b.maxX < a.minX ∨ b.minX > a.maxX ∨ b.maxY < a.minY ∨ b.minY > a.maxY ∨
      b.maxZ < a.minZ ∨ b.minZ > a.maxZ then false else true

/-- `this.buildModes = ['wall', 'floor', 'ramp', 'roof']`. -/
inductive BuildKind
  | wall
  | floor
  | ramp
  | roof
deriving DecidableEq

/-- The material tiers `'wood' | 'stone' | 'metal'`. -/
inductive MaterialKind
  | wood
  | stone
  | metal
deriving DecidableEq

/-- `this.costs = { wall: 10, floor: 10, ramp: 10, roof: 10 }`. -/
def costs : BuildKind → ℚ
  | .wall => 10
  | .floor => 10
  | .ramp => 10
  | .roof => 10

/-- One entry of `this.materialProps`. -/
structure MatProps where
  hp : ℚ
  buildTime : ℚ
deriving DecidableEq

/-- `this.materialProps = { wood: { hp: 150, buildTime: 4 },
stone: { hp: 300, buildTime: 7 }, metal: { hp: 500, buildTime: 10 } }`. -/
def materialProps : MaterialKind → MatProps
  | .wood => ⟨150, 4⟩
  | .stone => ⟨300, 7⟩
  | .metal => ⟨500, 10⟩

/-- `this.gridSize = 2` (metres). -/
def gridSize : ℚ := 2

/-- JavaScript's `Math.round`: the nearest integer, with ties (fractional
part exactly `.5`) rounded toward `+∞`, i.e. `⌊q + 1/2⌋`. -/
def jsRound (q : ℚ) : ℤ := ⌊q + 1/2⌋

/-- `snapToGrid(position)`: each axis is rounded independently to the
nearest multiple of the grid size
(`Math.round(position.x / this.gridSize) * this.gridSize`, etc.).  The
source reads the grid size from `this.gridSize`; it is passed here as an
explicit argument. -/
def snapToGrid (grid : ℚ) (position : Vec3Q) : Vec3Q :=
  ⟨(jsRound (position.x / grid) : ℚ) * grid,
   (jsRound (position.y / grid) : ℚ) * grid,
   (jsRound (position.z / grid) : ℚ) * grid⟩

/-- `calculateRotationFromNormal(normal)`: a surface whose normal has
`|normal.y| > 0.9` is horizontal (upright placement, no rotation); failing
that, `|normal.x| > 0.9` is a vertical X-facing surface (quarter turn about
Y, `rotation.set(0, Math.PI / 2, 0)`); every other normal yields the
unrotated orientation. -/
def calculateRotationFromNormal (normal : Vec3Q) : Euler :=
  if |normal.y| > 9/10 then ⟨0, 0, 0⟩
  else if |normal.x| > 9/10 then ⟨0, 1/2, 0⟩
  else ⟨0, 0, 0⟩

/-- Local-space axis-aligned bounds of the geometry the source builds for
each kind (grid size 2): `BoxGeometry(2, 2, 0.2)` for walls,
`BoxGeometry(2, 0.2, 2)` for floors, the explicit ramp vertex list spanning
`x ∈ [-1,1], y ∈ [0,2], z ∈ [-1,1]`, and `ConeGeometry(2/1.4, 1, 4)` for
roofs. -/
def geometryBox : BuildKind → Box3
  | .wall => ⟨-1, -1, -(1/10), 1, 1, 1/10⟩
  | .floor => ⟨-1, -(1/10), -1, 1, 1/10, 1⟩
  | .ramp => ⟨-1, 0, -1, 1, 2, 1⟩
  | .roof => ⟨-(10/7), -(1/2), -(10/7), 10/7, 1/2, 10/7⟩

/-- Exact `cos(n * π/2)` for a whole number of quarter turns. -/
def cosQuarter (n : ℤ) : ℚ :=
  if (n % 4 + 4) % 4 = 0 then 1
  else if (n % 4 + 4) % 4 = 2 then -1
  else 0

/-- Exact `sin(n * π/2)` for a whole number of quarter turns. -/
def sinQuarter (n : ℤ) : ℚ :=
  if (n % 4 + 4) % 4 = 1 then 1
  else if (n % 4 + 4) % 4 = 3 then -1
  else 0

/-- The rotations the placement subsystem ever stores on a mesh: a pure
yaw (zero pitch and roll) by a whole number of quarter turns.
`calculateRotationFromNormal` only ever returns `(0, 0, 0)` or
`(0, π/2, 0)`, and those are the rotations copied onto the ghost and onto
every placed structure, so every reachable mesh rotation satisfies this.
With angles stored as rational multiples of π, a yaw of `e.y * π` is a
whole number of quarter turns exactly when `2 * e.y` is an integer. -/
def Euler.isQuarterYaw (e : Euler) : Bool :=
  e.x == 0 && e.z == 0 && (2 * e.y).den == 1

/-- World-space bounding box of a mesh (`new THREE.Box3().setFromObject`,
which transforms the geometry's local bounding-box corners by the mesh's
world matrix — translation `p`, rotation, uniform scale — and takes
componentwise minima and maxima).  The rotation is applied exactly for the
pure quarter-turn yaws the subsystem produces (`Euler.isQuarterYaw`): a yaw
of `rot.y * π` is `2 * rot.y` quarter turns, rotating a point about Y by
`x' = c*x + s*z`, `z' = -s*x + c*z`, and the bounds of the transformed
corners are obtained by interval arithmetic (which coincides with the
corner enumeration `setFromObject` performs, the map being linear). -/
def worldBox (kind : BuildKind) (p : Vec3Q) (rot : Euler) (scale : ℚ) :
    Box3 :=
  let g := geometryBox kind
  let lx := min (scale * g.minX) (scale * g.maxX)
  let hx := max (scale * g.minX) (scale * g.maxX)
  let ly := min (scale * g.minY) (scale * g.maxY)
  let hy := max (scale * g.minY) (scale * g.maxY)
  let lz := min (scale * g.minZ) (scale * g.maxZ)
  let hz := max (scale * g.minZ) (scale * g.maxZ)
  let n := (2 * rot.y).num
  let c := cosQuarter n
  let s := sinQuarter n
  ⟨p.x + (min (c * lx) (c * hx) + min (s * lz) (s * hz)),
   p.y + ly,
   p.z + (min (-s * lx) (-s * hx) + min (c * lz) (c * hz)),
   p.x + (max (c * lx) (c * hx) + max (s * lz) (s * hz)),
   p.y + hy,
   p.z + (max (-s * lx) (-s * hx) + max (c * lz) (c * hz))⟩

/-- A placed structure record, as assembled by `createStructure`.  The
source stores `position`, `rotation` and the uniform scale on
`structure.mesh`; they are flattened into the record here.  The identifier
string `structure_${Date.now()}_${Math.random()}` is modelled as an opaque
natural number. -/
structure Structure where
  id : ℕ
  type : BuildKind
  material : MaterialKind
  position : Vec3Q
  rotation : Euler
  hp : ℚ
  maxHp : ℚ
  buildTime : ℚ
  builtAt : ℚ
  isBuilding : Bool
  meshScale : ℚ
deriving DecidableEq

/-- The player's resource ledger `this.player.resources`, one non-negative
quantity per material (mutated in place by the commit path). -/
structure Resources where
  wood : ℚ
  stone : ℚ
  metal : ℚ
deriving DecidableEq

/-- Read `player.resources[material]`. -/
def Resources.get (r : Resources) : MaterialKind → ℚ
  | .wood => r.wood
  | .stone => r.stone
  | .metal => r.metal

/-- `player.resources[material] -= amount`. -/
def Resources.sub (r : Resources) (m : MaterialKind) (amount : ℚ) : Resources :=
  match m with
  | .wood => { r with wood := r.wood - amount }
  | .stone => { r with stone := r.stone - amount }
  | .metal => { r with metal := r.metal - amount }

/-- The outbound placement event
`{ type: 'build', buildType, position, rotation }` handed to
`network.send` (the spec calls the `rotation` field the orientation). -/
structure BuildEvent where
  type : String
  buildType : BuildKind
  position : Vec3Q
  rotation : Euler
deriving DecidableEq

/-- Calls into the external collaborators, recorded as a trace:
`scene.add` / `scene.remove` of a structure's mesh, `physics.addBody` /
`physics.removeBody` of its static body, and `network.send` of the
placement event. -/
inductive Effect
  | sceneAdd (id : ℕ)
  | physicsAddBody (id : ℕ)
  | sceneRemove (id : ℕ)
  | physicsRemoveBody (id : ℕ)
  | networkSend (event : BuildEvent)
deriving DecidableEq

/-- The mutable state of a `BuildingSystem` instance: the active build
mode/material, whether build mode is engaged (`this.isBuilding`), the ghost
preview's placement, the `this.placementValid` flag stored by the last
`update`, the `this.structures` array, the player's resource ledger, and
the trace of collaborator calls made so far. -/
structure BuildingSystem where
  currentBuildMode : BuildKind
  currentMaterial : MaterialKind
  isBuilding : Bool
  ghostPosition : Vec3Q
  ghostRotation : Euler
  placementValid : Bool
  structures : List Structure
  resources : Resources
  effects : List Effect
deriving DecidableEq

/-- `createStructure(type, position, rotation)`: assembles the structure
record.  `hp` is initialised to the material's full `props.hp`, `maxHp` to
the same value, `builtAt` to `performance.now()` (the `now` argument),
`isBuilding` to `true`, and the mesh is created at its default scale `1`.
The current material is read from `this.currentMaterial` (passed
explicitly), and the generated identifier is the `newId` argument. -/
def createStructure (currentMaterial : MaterialKind) (type : BuildKind)
    (position : Vec3Q) (rotation : Euler) (newId : ℕ) (now : ℚ) : Structure :=
  let props := materialProps currentMaterial
  { id := newId
    type := type
    material := currentMaterial
    position := position
    rotation := rotation
    hp := props.hp
    maxHp := props.hp
    buildTime := props.buildTime
    builtAt := now
    isBuilding := true
    meshScale := 1 }

/-- `checkPlacementValid(placement)`: returns `false` if the player cannot
afford the current build mode's cost
(`this.player.resources[this.currentMaterial] < cost`), then `false` if the
ghost preview's world bounding box intersects any existing structure's
bounding box, and `true` otherwise.  Both boxes are computed from the
meshes' full world transforms — the ghost's position and rotation (the
ghost mesh is never scaled, so its scale is `1`) and each structure's
position, rotation and current scale. -/
def BuildingSystem.checkPlacementValid (s : BuildingSystem) : Bool :=
  if s.resources.get s.currentMaterial < costs s.currentBuildMode then false
  else
    let bbox := worldBox s.currentBuildMode s.ghostPosition s.ghostRotation 1
    !(s.structures.any fun st =>
      bbox.intersects (worldBox st.type st.position st.rotation st.meshScale))

/-- One `update(camera)` invocation in which the aim raycast produced a hit
(`hitPoint`, `hitNormal`): a no-op unless build mode is engaged; otherwise
the ghost is moved to the grid-snapped hit point with the normal-derived
rotation, and `this.placementValid` is recomputed from the moved ghost. -/
def BuildingSystem.update (s : BuildingSystem) (hitPoint hitNormal : Vec3Q) :
    BuildingSystem :=
  if !s.isBuilding then s
  else
    let s' := { s with
      ghostPosition := snapToGrid gridSize hitPoint
      ghostRotation := calculateRotationFromNormal hitNormal }
    { s' with placementValid := s'.checkPlacementValid }

/-- `switchBuildMode(mode)`: selects a new ghost geometry and cost (the
mode argument is always one of the four members of `this.buildModes`
here, so the source's membership guard passes). -/
def BuildingSystem.switchBuildMode (s : BuildingSystem) (mode : BuildKind) :
    BuildingSystem :=
  { s with currentBuildMode := mode }

/-- `placeBuild()`: returns `false` immediately when `this.placementValid`
is not set (no re-validation happens at commit time); otherwise it debits
the ledger by the mode's cost, creates the structure record from the
ghost's placement, pushes it onto `this.structures`, adds the mesh to the
scene and the body to the physics world, and sends the network placement
event, returning `true`. -/
def BuildingSystem.placeBuild (s : BuildingSystem) (newId : ℕ) (now : ℚ) :
    BuildingSystem × Bool :=
  if !s.placementValid then (s, false)
  else
    let cost := costs s.currentBuildMode
    let st := createStructure s.currentMaterial s.currentBuildMode
      s.ghostPosition s.ghostRotation newId now
    ({ s with
        resources := s.resources.sub s.currentMaterial cost
        structures := s.structures ++ [st]
        effects := s.effects ++
          [Effect.sceneAdd newId, Effect.physicsAddBody newId,
           Effect.networkSend
             { type := "build", buildType := s.currentBuildMode,
               position := st.position, rotation := st.rotation }] },
     true)

/-- One invocation of the 100 ms interval callback installed by
`animateBuild(structure)`: if the structure is no longer building the
interval is cleared and nothing changes; otherwise
`progress = Math.min(elapsedSeconds / buildTime, 1)` with
`elapsedSeconds = (now - builtAt) / 1000`, the hit points are overwritten
with `maxHp * progress`, the mesh scale with `0.5 + 0.5 * progress`, and
once `progress >= 1` the structure stops building. -/
def buildTick (now : ℚ) (st : Structure) : Structure :=
  if !st.isBuilding then st
  else
    let elapsed := (now - st.builtAt) / 1000
    let progress := min (elapsed / st.buildTime) 1
    { st with
        hp := st.maxHp * progress
        meshScale := 1/2 + 1/2 * progress
        isBuilding := if progress ≥ 1 then false else st.isBuilding }

/-- `this.structures.find(s => s.id === structureId)`. -/
def BuildingSystem.findStructure (s : BuildingSystem) (structureId : ℕ) :
    Option Structure :=
  s.structures.find? fun st => st.id == structureId

/-- Replace the first list entry satisfying `p` by its image under `f`
(the source mutates the object returned by `Array.find` in place). -/
def updateFirst (p : Structure → Bool) (f : Structure → Structure) :
    List Structure → List Structure
  | [] => []
  | st :: rest => if p st then f st :: rest else st :: updateFirst p f rest

/-- Drop the first list entry satisfying `p` (the source splices the found
object out by index). -/
def removeFirst (p : Structure → Bool) : List Structure → List Structure
  | [] => []
  | st :: rest => if p st then rest else st :: removeFirst p rest

/-- `destroyStructure(structure)`: removes the mesh from the scene, removes
the physics body, and splices the entry out of `this.structures` (the
destruction particle and sound hooks are empty stubs in the source). -/
def BuildingSystem.destroyStructure (s : BuildingSystem) (st : Structure) :
    BuildingSystem :=
  { s with
      structures := removeFirst (fun t => t.id == st.id) s.structures
      effects := s.effects ++
        [Effect.sceneRemove st.id, Effect.physicsRemoveBody st.id] }

/-- `damageStructure(structureId, damage)`: a no-op when no structure has
the given id; otherwise `structure.hp -= damage` in place, followed by
`destroyStructure` when the result is `<= 0` (the damage-flash hook for the
surviving case is an empty stub). -/
def BuildingSystem.damageStructure (s : BuildingSystem) (structureId : ℕ)
    (damage : ℚ) : BuildingSystem :=
  match s.findStructure structureId with
  | none => s
  | some st =>
      if st.hp - damage ≤ 0 then
        s.destroyStructure { st with hp := st.hp - damage }
      else
        { s with
            structures := updateFirst (fun t => t.id == structureId)
              (fun t => { t with hp := t.hp - damage }) s.structures }

/-- `clamp(v, lo, hi)` as used in the specification's progress formula. -/
def clampQ (v lo hi : ℚ) : ℚ := max lo (min v hi)

/-! ### Helper lemmas -/

/-- Once a structure has stopped building, the interval callback clears
itself without touching the structure. -/
lemma buildTick_of_not_building (now : ℚ) (st : Structure)
    (h : st.isBuilding = false) : buildTick now st = st := by
  simp [buildTick, h]

/-- Explicit form of one interval invocation on a structure that is still
building. -/
lemma buildTick_building (now : ℚ) (st : Structure)
    (hb : st.isBuilding = true) :
    buildTick now st =
      { st with
          hp := st.maxHp * min ((now - st.builtAt) / 1000 / st.buildTime) 1
          meshScale :=
            1/2 + 1/2 * min ((now - st.builtAt) / 1000 / st.buildTime) 1
          isBuilding :=
            if min ((now - st.builtAt) / 1000 / st.buildTime) 1 ≥ 1 then false
            else true } := by
  simp [buildTick, hb]

lemma mem_removeFirst (p : Structure → Bool) (l : List Structure)
    (st : Structure) (h : st ∈ removeFirst p l) : st ∈ l := by
  induction l with
  | nil => simp [removeFirst] at h
  | cons a rest ih =>
    rw [removeFirst] at h
    by_cases hpa : p a = true
    · rw [if_pos hpa] at h
      exact List.mem_cons_of_mem _ h
    · rw [if_neg hpa] at h
      rcases List.mem_cons.1 h with rfl | h2
      · exact List.mem_cons_self _ _
      · exact List.mem_cons_of_mem _ (ih h2)

lemma mem_updateFirst (p : Structure → Bool) (f : Structure → Structure)
    (l : List Structure) (st : Structure) (h : st ∈ updateFirst p f l) :
    st ∈ l ∨ ∃ t, l.find? p = some t ∧ st = f t := by
  induction l with
  | nil => simp [updateFirst] at h
  | cons a rest ih =>
    rw [updateFirst] at h
    by_cases hpa : p a = true
    · rw [if_pos hpa] at h
      rcases List.mem_cons.1 h with rfl | h2
      · exact Or.inr ⟨a, by rw [List.find?_cons_of_pos _ hpa], rfl⟩
      · exact Or.inl (List.mem_cons_of_mem _ h2)
    · rw [if_neg hpa] at h
      rcases List.mem_cons.1 h with rfl | h2
      · exact Or.inl (List.mem_cons_self _ _)
      · rcases ih h2 with h3 | ⟨t, hft, rfl⟩
        · exact Or.inl (List.mem_cons_of_mem _ h3)
        · exact Or.inr ⟨t, by rw [List.find?_cons_of_neg _ hpa]; exact hft, rfl⟩

/-- Every structure present after `damageStructure` is either an untouched
pre-state structure, or the damaged copy of a pre-state structure whose
decremented hit points are still strictly positive. -/
lemma damageStructure_mem (s : BuildingSystem) (i : ℕ) (d : ℚ)
    (st' : Structure) (h : st' ∈ (s.damageStructure i d).structures) :
    st' ∈ s.structures ∨
      ∃ t ∈ s.structures, st' = { t with hp := t.hp - d } ∧ 0 < t.hp - d := by
  rcases hfind : s.findStructure i with _ | st
  · simp only [BuildingSystem.damageStructure, hfind] at h
    exact Or.inl h
  · simp only [BuildingSystem.damageStructure, hfind] at h
    by_cases hle : st.hp - d ≤ 0
    · rw [if_pos hle] at h
      simp only [BuildingSystem.destroyStructure] at h
      exact Or.inl (mem_removeFirst _ _ _ h)
    · rw [if_neg hle] at h
      rcases mem_updateFirst _ _ _ _ h with h1 | ⟨t, hft, rfl⟩
      · exact Or.inl h1
      · have hts : t = st := by
          rw [BuildingSystem.findStructure, hft] at hfind
          exact Option.some.inj hfind
        refine Or.inr ⟨t, List.mem_of_find?_eq_some hft, rfl, ?_⟩
        rw [hts]
        linarith [not_le.1 hle]

/-- Sanity check of the rotation handling in `worldBox`: a wall placed
with the `(0, π/2, 0)` yaw that `calculateRotationFromNormal` produces for
X-facing surfaces has its x/z extents swapped relative to an unrotated
wall, exactly as `THREE.Box3.setFromObject` computes. -/
lemma worldBox_wall_quarter_yaw (p : Vec3Q) :
    worldBox .wall p ⟨0, 1/2, 0⟩ 1 =
      ⟨p.x - 1/10, p.y - 1, p.z - 1, p.x + 1/10, p.y + 1, p.z + 1⟩ ∧
    worldBox .wall p ⟨0, 0, 0⟩ 1 =
      ⟨p.x - 1, p.y - 1, p.z - 1/10, p.x + 1, p.y + 1, p.z + 1/10⟩ := by
  refine ⟨?_, ?_⟩ <;>
    norm_num [worldBox, geometryBox, cosQuarter, sinQuarter] <;>
    refine ⟨by ring, by ring, by ring⟩

/-- Evaluated world boxes at the origin, used by the concrete scenarios. -/
lemma worldBox_wall_origin :
    worldBox .wall ⟨0, 0, 0⟩ ⟨0, 0, 0⟩ 1 = ⟨-1, -1, -(1/10), 1, 1, 1/10⟩ := by
  norm_num [worldBox, geometryBox, cosQuarter, sinQuarter]

lemma worldBox_floor_origin :
    worldBox .floor ⟨0, 0, 0⟩ ⟨0, 0, 0⟩ 1 = ⟨-1, -(1/10), -1, 1, 1/10, 1⟩ := by
  norm_num [worldBox, geometryBox, cosQuarter, sinQuarter]

lemma worldBox_wall_rot_origin :
    worldBox .wall ⟨0, 0, 0⟩ ⟨0, 1/2, 0⟩ 1 =
      ⟨-(1/10), -1, -1, 1/10, 1, 1⟩ := by
  norm_num [worldBox, geometryBox, cosQuarter, sinQuarter]

/-- A commit attempt with a cleared validation flag returns `false` and
changes nothing. -/
lemma placeBuild_of_invalid (s : BuildingSystem) (newId : ℕ) (now : ℚ)
    (h : s.placementValid = false) : s.placeBuild newId now = (s, false) := by
  simp [BuildingSystem.placeBuild, h]

/-- The preview update touches only the ghost fields and the validation
flag. -/
lemma update_preserves (s : BuildingSystem) (hitPoint hitNormal : Vec3Q) :
    (s.update hitPoint hitNormal).structures = s.structures ∧
    (s.update hitPoint hitNormal).resources = s.resources ∧
    (s.update hitPoint hitNormal).effects = s.effects := by
  rw [BuildingSystem.update]
  split <;> simp

lemma jsRound_intCast (n : ℤ) : jsRound (n : ℚ) = n := by
  rw [jsRound, Int.floor_int_add]
  norm_num

lemma snapCoord_nearest (g x : ℚ) (hg : 0 < g) :
    |(jsRound (x / g) : ℚ) * g - x| ≤ g / 2 := by
  have h1 : (jsRound (x / g) : ℚ) ≤ x / g + 1/2 := Int.floor_le _
  have h2 : x / g + 1/2 < (jsRound (x / g) : ℚ) + 1 := Int.lt_floor_add_one _
  have hx1 : (jsRound (x / g) : ℚ) * g ≤ x + g / 2 := by
    calc (jsRound (x / g) : ℚ) * g ≤ (x / g + 1/2) * g :=
          mul_le_mul_of_nonneg_right h1 hg.le
      _ = x + g / 2 := by
          rw [add_mul, div_mul_cancel₀ _ hg.ne']
          ring
  have hx2 : x - g / 2 < (jsRound (x / g) : ℚ) * g := by
    have h2' : x / g - 1/2 < (jsRound (x / g) : ℚ) := by linarith
    calc x - g / 2 = (x / g - 1/2) * g := by
          rw [sub_mul, div_mul_cancel₀ _ hg.ne']
          ring
      _ < (jsRound (x / g) : ℚ) * g := mul_lt_mul_of_pos_right h2' hg
  rw [abs_le]
  constructor <;> linarith

lemma snapCoord_idem (g x : ℚ) (hg : g ≠ 0) :
    (jsRound ((jsRound (x / g) : ℚ) * g / g) : ℚ) * g =
      (jsRound (x / g) : ℚ) * g := by
  rw [mul_div_cancel_right₀ _ hg, jsRound_intCast]

/-- With a bounded (at most unit-length) normal, only one component can
clear the `0.9` dominance threshold. -/
lemma dominant_axis_excludes (a b c : ℚ) (h : a^2 + b^2 + c^2 ≤ 1)
    (ha : 9/10 < |a|) : |b| ≤ 9/10 := by
  nlinarith [sq_abs a, sq_abs b, sq_nonneg c, abs_nonneg a, abs_nonneg b,
    sq_nonneg (|a| - 9/10), sq_nonneg (|b| - 9/10)]

/-! ### Claim theorems -/

/-- C8.  For every `gridSize > 0` and every world position `p`,
`snapToGrid` rounds each axis independently to the nearest multiple of the
grid size (the result's components are integer multiples of `gridSize`,
each within `gridSize / 2` of the input component) and is idempotent:
snapping an already-snapped position changes nothing. -/
theorem snapToGrid_nearest_multiple_idempotent (g : ℚ) (p : Vec3Q)
    (hg : 0 < g) :
    snapToGrid g (snapToGrid g p) = snapToGrid g p ∧
    (∃ i : ℤ, (snapToGrid g p).x = i * g) ∧
    (∃ i : ℤ, (snapToGrid g p).y = i * g) ∧
    (∃ i : ℤ, (snapToGrid g p).z = i * g) ∧
    |(snapToGrid g p).x - p.x| ≤ g / 2 ∧
    |(snapToGrid g p).y - p.y| ≤ g / 2 ∧
    |(snapToGrid g p).z - p.z| ≤ g / 2 := by
  refine ⟨?_, ⟨jsRound (p.x / g), rfl⟩, ⟨jsRound (p.y / g), rfl⟩,
    ⟨jsRound (p.z / g), rfl⟩, snapCoord_nearest g p.x hg,
    snapCoord_nearest g p.y hg, snapCoord_nearest g p.z hg⟩
  simp only [snapToGrid, Vec3Q.mk.injEq]
  exact ⟨snapCoord_idem g p.x hg.ne', snapCoord_idem g p.y hg.ne',
    snapCoord_idem g p.z hg.ne'⟩

/-- Closed witness for C8 at `gridSize = 2`, `p = (3, -5, 7)`. -/
theorem snapToGrid_nearest_multiple_idempotent_witness :
    (0 : ℚ) < 2 ∧
    (snapToGrid 2 (snapToGrid 2 ⟨3, -5, 7⟩) = snapToGrid 2 ⟨3, -5, 7⟩ ∧
     (∃ i : ℤ, (snapToGrid 2 ⟨3, -5, 7⟩).x = i * 2) ∧
     (∃ i : ℤ, (snapToGrid 2 ⟨3, -5, 7⟩).y = i * 2) ∧
     (∃ i : ℤ, (snapToGrid 2 ⟨3, -5, 7⟩).z = i * 2) ∧
     |(snapToGrid 2 ⟨3, -5, 7⟩).x - 3| ≤ 2 / 2 ∧
     |(snapToGrid 2 ⟨3, -5, 7⟩).y - (-5)| ≤ 2 / 2 ∧
     |(snapToGrid 2 ⟨3, -5, 7⟩).z - 7| ≤ 2 / 2) :=
  ⟨by norm_num,
   snapToGrid_nearest_multiple_idempotent 2 ⟨3, -5, 7⟩ (by norm_num)⟩

/-- The orientation behaviour claimed for `calculateRotationFromNormal`:
each dominance case yields a fixed orientation (Y-dominant and Z-dominant
normals map to the unrotated orientation, X-dominant normals to the
quarter turn about Y), normals with no component above the threshold map
to the unrotated orientation, and the result depends only on the
components' absolute values (never on their signs). -/
def RotationFromNormalSpec (n : Vec3Q) : Prop :=
  (9/10 < |n.y| → calculateRotationFromNormal n = ⟨0, 0, 0⟩) ∧
  (9/10 < |n.x| → calculateRotationFromNormal n = ⟨0, 1/2, 0⟩) ∧
  (9/10 < |n.z| → calculateRotationFromNormal n = ⟨0, 0, 0⟩) ∧
  ((|n.x| ≤ 9/10 ∧ |n.y| ≤ 9/10 ∧ |n.z| ≤ 9/10) →
    calculateRotationFromNormal n = ⟨0, 0, 0⟩) ∧
  calculateRotationFromNormal n = calculateRotationFromNormal ⟨|n.x|, |n.y|, |n.z|⟩

/-- C9.  For every (at most unit-length) surface normal with a dominant
component of magnitude above `0.9`, `calculateRotationFromNormal` returns
an orientation determined by the dominant axis alone, independent of every
component's sign, and every normal with no component magnitude above `0.9`
yields the unrotated orientation. -/
theorem calculateRotationFromNormal_dominant_axis (n : Vec3Q)
    (h : n.x ^ 2 + n.y ^ 2 + n.z ^ 2 ≤ 1) : RotationFromNormalSpec n := by
  refine ⟨fun hy => ?_, fun hx => ?_, fun hz => ?_, fun ⟨hx, hy, _⟩ => ?_, ?_⟩
  · simp [calculateRotationFromNormal, hy]
  · have hy : |n.y| ≤ 9/10 := dominant_axis_excludes n.x n.y n.z h hx
    simp [calculateRotationFromNormal, not_lt.2 hy, hx]
  · have hy : |n.y| ≤ 9/10 :=
      dominant_axis_excludes n.z n.y n.x (by linarith) hz
    have hx : |n.x| ≤ 9/10 :=
      dominant_axis_excludes n.z n.x n.y (by linarith) hz
    simp [calculateRotationFromNormal, not_lt.2 hy, not_lt.2 hx]
  · simp [calculateRotationFromNormal, not_lt.2 hy, not_lt.2 hx]
  · simp [calculateRotationFromNormal, abs_abs]

/-- Closed witness for C9 at the X-dominant normal
`(0.95, 0.2, 0.1)` (magnitude below one). -/
theorem calculateRotationFromNormal_dominant_axis_witness :
    ((19/20 : ℚ) ^ 2 + (1/5 : ℚ) ^ 2 + (1/10 : ℚ) ^ 2 ≤ 1) ∧
    RotationFromNormalSpec ⟨19/20, 1/5, 1/10⟩ :=
  ⟨by norm_num,
   calculateRotationFromNormal_dominant_axis ⟨19/20, 1/5, 1/10⟩ (by norm_num)⟩

/-- The Wood/Wall structure of the specification's construction example:
created at time `0` (`maxHitPoints = 150`, `buildDurationSeconds = 4`). -/
def woodAtZero : Structure := createStructure .wood .wall ⟨0, 0, 0⟩ ⟨0, 0, 0⟩ 1 0

/-- The specification's construction timeline for `woodAtZero`: the tick
arriving after 2 elapsed seconds stores `150 * 0.5 = 75` hit points and
leaves the structure under construction; every tick arriving at or after 4
elapsed seconds stores the full `150` hit points and ends construction; and
once construction has ended, further ticks change nothing at all. -/
def WoodBuildTimeline : Prop :=
  (buildTick 2000 woodAtZero).hp = 75 ∧
  (buildTick 2000 woodAtZero).isBuilding = true ∧
  (∀ t : ℚ, 4000 ≤ t →
    (buildTick t (buildTick 2000 woodAtZero)).hp = 150 ∧
    (buildTick t (buildTick 2000 woodAtZero)).isBuilding = false) ∧
  (∀ t : ℚ, buildTick t (buildTick 4000 (buildTick 2000 woodAtZero)) =
    buildTick 4000 (buildTick 2000 woodAtZero))

/-- C1.  Every build-interval invocation on a structure still under
construction stores `maxHitPoints * clamp(elapsedSeconds / buildDuration,
0, 1)` as the current hit points, and the Wood example follows the claimed
timeline: `75` hit points after 2 seconds, `150` with construction finished
after 4 or more seconds, and no further scheduler work once finished. -/
theorem buildTick_clamp_and_wood_timeline (st : Structure) (now : ℚ)
    (hb : st.isBuilding = true) (h1 : st.builtAt ≤ now)
    (h2 : 0 < st.buildTime) :
    (buildTick now st).hp =
      st.maxHp * clampQ ((now - st.builtAt) / 1000 / st.buildTime) 0 1 ∧
    WoodBuildTimeline := by
  constructor
  · have hv : 0 ≤ (now - st.builtAt) / 1000 / st.buildTime :=
      div_nonneg (div_nonneg (by linarith) (by norm_num)) h2.le
    rw [clampQ, max_eq_right (le_min hv zero_le_one)]
    simp [buildTick, hb]
  · have hw1 : buildTick 2000 woodAtZero =
        { id := 1, type := .wall, material := .wood, position := ⟨0, 0, 0⟩,
          rotation := ⟨0, 0, 0⟩, hp := 75, maxHp := 150, buildTime := 4,
          builtAt := 0, isBuilding := true, meshScale := 3/4 } := by
      norm_num [buildTick, woodAtZero, createStructure, materialProps]
    refine ⟨by rw [hw1], by rw [hw1], fun t ht => ?_, fun t => ?_⟩
    · rw [hw1]
      have hprog : (1 : ℚ) ≤ t / 1000 / 4 := by
        have hdd : t / 1000 / 4 = t / 4000 := by ring
        rw [hdd, le_div_iff₀ (by norm_num : (0:ℚ) < 4000)]
        linarith
      rw [buildTick]
      norm_num [min_eq_right hprog, hprog]
    · exact buildTick_of_not_building t _
        (by norm_num [buildTick, woodAtZero, createStructure, materialProps])

/-- Closed witness for C1: the clamp formula and the Wood timeline,
instantiated at `woodAtZero` and the tick arriving at 2 elapsed seconds. -/
theorem buildTick_clamp_and_wood_timeline_witness :
    (woodAtZero.isBuilding = true ∧ woodAtZero.builtAt ≤ 2000 ∧
      0 < woodAtZero.buildTime) ∧
    ((buildTick 2000 woodAtZero).hp =
      woodAtZero.maxHp *
        clampQ ((2000 - woodAtZero.builtAt) / 1000 / woodAtZero.buildTime) 0 1 ∧
     WoodBuildTimeline) :=
  ⟨⟨rfl, by norm_num [woodAtZero, createStructure, materialProps],
    by norm_num [woodAtZero, createStructure, materialProps]⟩,
   buildTick_clamp_and_wood_timeline woodAtZero 2000 rfl
     (by norm_num [woodAtZero, createStructure, materialProps])
     (by norm_num [woodAtZero, createStructure, materialProps])⟩

/-- Counterexample for C2: at the moment of creation the Wood structure's
`hp` is the material's full `150`, not `0` as the claim states. -/
theorem createStructure_hp_not_zero :
    (createStructure .wood .wall ⟨0, 0, 0⟩ ⟨0, 0, 0⟩ 1 0).hp = 150 ∧
    ¬ (createStructure .wood .wall ⟨0, 0, 0⟩ ⟨0, 0, 0⟩ 1 0).hp = 0 := by
  norm_num [createStructure, materialProps]

/-- C2 (amended).  `createStructure` returns a structure whose hit points
equal the material's `maxHitPoints` (the build-progress ticks then restart
the ramp from near zero) and whose `isBuilding` flag is `true`; the mesh
and physics body are registered with the rendering and physics
collaborators by the enclosing `placeBuild` commit. -/
theorem createStructure_initial_state (mat : MaterialKind) (kind : BuildKind)
    (pos : Vec3Q) (rot : Euler) (newId : ℕ) (now : ℚ) (s : BuildingSystem)
    (hvalid : s.placementValid = true) :
    (createStructure mat kind pos rot newId now).hp = (materialProps mat).hp ∧
    (createStructure mat kind pos rot newId now).maxHp = (materialProps mat).hp ∧
    (createStructure mat kind pos rot newId now).isBuilding = true ∧
    Effect.sceneAdd newId ∈ (s.placeBuild newId now).1.effects ∧
    Effect.physicsAddBody newId ∈ (s.placeBuild newId now).1.effects := by
  refine ⟨rfl, rfl, rfl, ?_, ?_⟩ <;>
    simp [BuildingSystem.placeBuild, hvalid]

/-- A build-mode state whose last preview validation succeeded (empty
world, twenty wood in the ledger, ghost at the origin). -/
def previewValidState : BuildingSystem :=
  { currentBuildMode := .wall, currentMaterial := .wood, isBuilding := true,
    ghostPosition := ⟨0, 0, 0⟩, ghostRotation := ⟨0, 0, 0⟩,
    placementValid := true, structures := [], resources := ⟨20, 0, 0⟩,
    effects := [] }

/-- Closed witness for the amended C2, instantiated at a Wood/Wall creation
inside the valid preview state. -/
theorem createStructure_initial_state_witness :
    previewValidState.placementValid = true ∧
    ((createStructure .wood .wall ⟨0, 0, 0⟩ ⟨0, 0, 0⟩ 7 0).hp =
        (materialProps .wood).hp ∧
     (createStructure .wood .wall ⟨0, 0, 0⟩ ⟨0, 0, 0⟩ 7 0).maxHp =
        (materialProps .wood).hp ∧
     (createStructure .wood .wall ⟨0, 0, 0⟩ ⟨0, 0, 0⟩ 7 0).isBuilding = true ∧
     Effect.sceneAdd 7 ∈ (previewValidState.placeBuild 7 0).1.effects ∧
     Effect.physicsAddBody 7 ∈ (previewValidState.placeBuild 7 0).1.effects) :=
  ⟨rfl, createStructure_initial_state .wood .wall ⟨0, 0, 0⟩ ⟨0, 0, 0⟩ 7 0
    previewValidState rfl⟩

/-- Counterexample for C6: hit points do not increase monotonically from
zero during construction — the freshly created Wood structure starts at
`150` hit points, and the build tick 100 ms later drops them to `3.75`. -/
theorem hp_not_monotone_from_zero :
    woodAtZero.isBuilding = true ∧ woodAtZero.hp = 150 ∧
    ¬ woodAtZero.hp = 0 ∧
    (buildTick 100 woodAtZero).isBuilding = true ∧
    (buildTick 100 woodAtZero).hp = 15/4 ∧
    (buildTick 100 woodAtZero).hp < woodAtZero.hp := by
  norm_num [buildTick, woodAtZero, createStructure, materialProps]

/-- Damage with a nonnegative amount never raises a registry entry's hit
points: every post-state structure is an untouched pre-state structure or
a pre-state structure with the same id and fewer (or equal) hit points. -/
def DamageOnlyDecreases : Prop :=
  ∀ (s : BuildingSystem) (i : ℕ) (d : ℚ), 0 ≤ d →
    ∀ st' ∈ (s.damageStructure i d).structures,
      st' ∈ s.structures ∨
        ∃ t ∈ s.structures, st'.id = t.id ∧ st'.hp ≤ t.hp

/-- C6 (amended).  Across build ticks the stored hit points
`maxHitPoints * progress` grow monotonically with elapsed time toward
`maxHitPoints` (staying within `[0, maxHitPoints]`); once a structure has
finished construction, build ticks leave it completely unchanged; and
damage with a nonnegative amount only ever lowers hit points.  (At the
moment of creation, however, the record starts at full hit points — see
the counterexample — so the ramp starts from near zero only after the
first tick.) -/
theorem hp_ramp_monotone_and_damage_decrease (st : Structure) (t1 t2 : ℚ)
    (hb : st.isBuilding = true) (h1 : st.builtAt ≤ t1) (h12 : t1 ≤ t2)
    (hmax : 0 ≤ st.maxHp) (hbt : 0 < st.buildTime) :
    (buildTick t1 st).hp ≤ (buildTick t2 (buildTick t1 st)).hp ∧
    0 ≤ (buildTick t1 st).hp ∧ (buildTick t1 st).hp ≤ st.maxHp ∧
    (∀ (u : ℚ) (st2 : Structure), st2.isBuilding = false →
      buildTick u st2 = st2) ∧
    DamageOnlyDecreases := by
  have hv1 : 0 ≤ (t1 - st.builtAt) / 1000 / st.buildTime :=
    div_nonneg (div_nonneg (by linarith) (by norm_num)) hbt.le
  have hp1nn : 0 ≤ min ((t1 - st.builtAt) / 1000 / st.buildTime) 1 :=
    le_min hv1 zero_le_one
  have hp1le : min ((t1 - st.builtAt) / 1000 / st.buildTime) 1 ≤ 1 :=
    min_le_right _ _
  have h1eq := buildTick_building t1 st hb
  refine ⟨?_, ?_, ?_, fun u st2 h => buildTick_of_not_building u st2 h, ?_⟩
  · by_cases hfin : min ((t1 - st.builtAt) / 1000 / st.buildTime) 1 ≥ 1
    · have hstop : (buildTick t1 st).isBuilding = false := by
        rw [h1eq]
        simp [hfin]
      rw [buildTick_of_not_building t2 _ hstop]
    · have hkeep : (buildTick t1 st).isBuilding = true := by
        rw [h1eq]
        simp [hfin]
      have h2eq := buildTick_building t2 (buildTick t1 st) hkeep
      rw [h2eq, h1eq]
      have hmono : (t1 - st.builtAt) / 1000 / st.buildTime ≤
          (t2 - st.builtAt) / 1000 / st.buildTime := by
        gcongr
      exact mul_le_mul_of_nonneg_left (min_le_min hmono le_rfl) hmax
  · rw [h1eq]
    exact mul_nonneg hmax hp1nn
  · rw [h1eq]
    calc st.maxHp * min ((t1 - st.builtAt) / 1000 / st.buildTime) 1
        ≤ st.maxHp * 1 := mul_le_mul_of_nonneg_left hp1le hmax
      _ = st.maxHp := mul_one _
  · intro s i d hd st' hmem
    rcases damageStructure_mem s i d st' hmem with h | ⟨t, htmem, rfl, _⟩
    · exact Or.inl h
    · exact Or.inr ⟨t, htmem, rfl, by simp; linarith⟩

/-- Closed witness for the amended C6, instantiated at `woodAtZero` with
ticks at 1 and 3 elapsed seconds. -/
theorem hp_ramp_monotone_and_damage_decrease_witness :
    (woodAtZero.isBuilding = true ∧ woodAtZero.builtAt ≤ 1000 ∧
      (1000 : ℚ) ≤ 3000 ∧ 0 ≤ woodAtZero.maxHp ∧ 0 < woodAtZero.buildTime) ∧
    ((buildTick 1000 woodAtZero).hp ≤
        (buildTick 3000 (buildTick 1000 woodAtZero)).hp ∧
     0 ≤ (buildTick 1000 woodAtZero).hp ∧
     (buildTick 1000 woodAtZero).hp ≤ woodAtZero.maxHp ∧
     (∀ (u : ℚ) (st2 : Structure), st2.isBuilding = false →
       buildTick u st2 = st2) ∧
     DamageOnlyDecreases) :=
  ⟨⟨rfl, by norm_num [woodAtZero, createStructure, materialProps],
    by norm_num, by norm_num [woodAtZero, createStructure, materialProps],
    by norm_num [woodAtZero, createStructure, materialProps]⟩,
   hp_ramp_monotone_and_damage_decrease woodAtZero 1000 3000 rfl
     (by norm_num [woodAtZero, createStructure, materialProps]) (by norm_num)
     (by norm_num [woodAtZero, createStructure, materialProps])
     (by norm_num [woodAtZero, createStructure, materialProps])⟩

/-- C3.  Whenever the player's ledger holds less of the selected material
than the selected kind costs, `checkPlacementValid` returns `false`, the
preview update stores the failed validation, and the subsequent
`placeBuild` attempt is rejected, leaving the structure registry, the
resource ledger and the collaborator-call trace unchanged. -/
theorem insufficient_resources_reject_and_commit_noop (s : BuildingSystem)
    (hitPoint hitNormal : Vec3Q) (newId : ℕ) (now : ℚ)
    (hmode : s.isBuilding = true)
    (hres : s.resources.get s.currentMaterial < costs s.currentBuildMode) :
    s.checkPlacementValid = false ∧
    (s.update hitPoint hitNormal).placementValid = false ∧
    ((s.update hitPoint hitNormal).placeBuild newId now).2 = false ∧
    ((s.update hitPoint hitNormal).placeBuild newId now).1.structures =
      s.structures ∧
    ((s.update hitPoint hitNormal).placeBuild newId now).1.resources =
      s.resources ∧
    ((s.update hitPoint hitNormal).placeBuild newId now).1.effects =
      s.effects := by
  have h1 : s.checkPlacementValid = false := by
    simp [BuildingSystem.checkPlacementValid, hres]
  have h2 : (s.update hitPoint hitNormal).placementValid = false := by
    simp [BuildingSystem.update, hmode, BuildingSystem.checkPlacementValid,
      hres]
  have h3 := placeBuild_of_invalid (s.update hitPoint hitNormal) newId now h2
  obtain ⟨hstr, hres', heff⟩ := update_preserves s hitPoint hitNormal
  refine ⟨h1, h2, ?_, ?_, ?_, ?_⟩
  · rw [h3]
  · rw [h3]
    exact hstr
  · rw [h3]
    exact hres'
  · rw [h3]
    exact heff

/-- The specification's insufficient-resources state: build mode engaged on
a Wall with Wood selected, but only 5 wood in the ledger against the cost
of 10. -/
def poorState : BuildingSystem :=
  { currentBuildMode := .wall, currentMaterial := .wood, isBuilding := true,
    ghostPosition := ⟨0, 0, 0⟩, ghostRotation := ⟨0, 0, 0⟩,
    placementValid := false, structures := [], resources := ⟨5, 0, 0⟩,
    effects := [] }

/-- Closed witness for C3 at `ledger[Wood] = 5`, cost `10`. -/
theorem insufficient_resources_reject_and_commit_noop_witness :
    (poorState.isBuilding = true ∧
      poorState.resources.get poorState.currentMaterial <
        costs poorState.currentBuildMode) ∧
    (poorState.checkPlacementValid = false ∧
     (poorState.update ⟨0, 0, 0⟩ ⟨0, 1, 0⟩).placementValid = false ∧
     ((poorState.update ⟨0, 0, 0⟩ ⟨0, 1, 0⟩).placeBuild 1 0).2 = false ∧
     ((poorState.update ⟨0, 0, 0⟩ ⟨0, 1, 0⟩).placeBuild 1 0).1.structures =
       poorState.structures ∧
     ((poorState.update ⟨0, 0, 0⟩ ⟨0, 1, 0⟩).placeBuild 1 0).1.resources =
       poorState.resources ∧
     ((poorState.update ⟨0, 0, 0⟩ ⟨0, 1, 0⟩).placeBuild 1 0).1.effects =
       poorState.effects) :=
  ⟨⟨rfl, by norm_num [poorState, Resources.get, costs]⟩,
   insufficient_resources_reject_and_commit_noop poorState ⟨0, 0, 0⟩
     ⟨0, 1, 0⟩ 1 0 rfl (by norm_num [poorState, Resources.get, costs])⟩

/-- The destroyed-structure scenario of the specification: a registry
holding one finished structure with 150 hit points and id `1`. -/
def fullHpState : BuildingSystem :=
  { currentBuildMode := .wall, currentMaterial := .wood, isBuilding := false,
    ghostPosition := ⟨0, 0, 0⟩, ghostRotation := ⟨0, 0, 0⟩,
    placementValid := false,
    structures := [{ id := 1, type := .wall, material := .wood,
                     position := ⟨0, 0, 0⟩, rotation := ⟨0, 0, 0⟩, hp := 150,
                     maxHp := 150, buildTime := 4, builtAt := 0,
                     isBuilding := false, meshScale := 1 }],
    resources := ⟨0, 0, 0⟩, effects := [] }

/-- C5.  The registry never exposes negative hit points (`damageStructure`
either leaves a structure with strictly positive hit points or removes
it), and damaging the 150-hit-point structure with 200 damage removes it:
`find` subsequently reports it missing, the registry is empty, and the
collaborator teardown — one scene removal and one physics-body removal —
is invoked exactly once. -/
theorem damageStructure_floor_and_destroy (s : BuildingSystem) (i : ℕ)
    (d : ℚ) (h : ∀ st ∈ s.structures, 0 ≤ st.hp) :
    (∀ st ∈ (s.damageStructure i d).structures, 0 ≤ st.hp) ∧
    (fullHpState.damageStructure 1 200).findStructure 1 = none ∧
    (fullHpState.damageStructure 1 200).structures = [] ∧
    (fullHpState.damageStructure 1 200).effects =
      [Effect.sceneRemove 1, Effect.physicsRemoveBody 1] := by
  refine ⟨?_, ?_, ?_, ?_⟩
  · intro st' hmem
    rcases damageStructure_mem s i d st' hmem with hin | ⟨t, htmem, rfl, hpos⟩
    · exact h st' hin
    · simpa using hpos.le
  · norm_num [fullHpState, BuildingSystem.damageStructure,
      BuildingSystem.findStructure, BuildingSystem.destroyStructure,
      removeFirst, List.find?]
  · norm_num [fullHpState, BuildingSystem.damageStructure,
      BuildingSystem.findStructure, BuildingSystem.destroyStructure,
      removeFirst, List.find?]
  · norm_num [fullHpState, BuildingSystem.damageStructure,
      BuildingSystem.findStructure, BuildingSystem.destroyStructure,
      removeFirst, List.find?]

/-- Closed witness for C5, applying the theorem to the destroyed-structure
scenario state itself. -/
theorem damageStructure_floor_and_destroy_witness :
    (∀ st ∈ fullHpState.structures, 0 ≤ st.hp) ∧
    ((∀ st ∈ (fullHpState.damageStructure 1 200).structures, 0 ≤ st.hp) ∧
     (fullHpState.damageStructure 1 200).findStructure 1 = none ∧
     (fullHpState.damageStructure 1 200).structures = [] ∧
     (fullHpState.damageStructure 1 200).effects =
       [Effect.sceneRemove 1, Effect.physicsRemoveBody 1]) :=
  ⟨by norm_num [fullHpState],
   damageStructure_floor_and_destroy fullHpState 1 200
     (by norm_num [fullHpState])⟩

/-- The full collaborator sequence a validated commit performs: success
result, ledger debited by the kind's cost, the structure record appended
to the registry, and the scene-add, body-add and network-send calls
appended to the trace with the placement event built from the ghost's
position and rotation. -/
def CommitSequence (s : BuildingSystem) (newId : ℕ) (now : ℚ) : Prop :=
  (s.placeBuild newId now).2 = true ∧
  (s.placeBuild newId now).1.resources =
    s.resources.sub s.currentMaterial (costs s.currentBuildMode) ∧
  (s.placeBuild newId now).1.structures =
    s.structures ++ [createStructure s.currentMaterial s.currentBuildMode
      s.ghostPosition s.ghostRotation newId now] ∧
  (s.placeBuild newId now).1.effects =
    s.effects ++
      [Effect.sceneAdd newId, Effect.physicsAddBody newId,
       Effect.networkSend
         { type := "build", buildType := s.currentBuildMode,
           position := s.ghostPosition, rotation := s.ghostRotation }]

/-- C7.  Every commit performed while the stored validation flag is set
executes the full sequence: ledger debit, registry creation, mesh and body
instantiation via the collaborators, and exactly one network send of the
`build` placement event. -/
theorem placeBuild_commit_sequence (s : BuildingSystem) (newId : ℕ)
    (now : ℚ) (h : s.placementValid = true) : CommitSequence s newId now := by
  refine ⟨?_, ?_, ?_, ?_⟩ <;>
    simp [CommitSequence, BuildingSystem.placeBuild, h, createStructure]

/-- Closed witness for C7 in the valid preview state. -/
theorem placeBuild_commit_sequence_witness :
    previewValidState.placementValid = true ∧
    CommitSequence previewValidState 3 500 :=
  ⟨rfl, placeBuild_commit_sequence previewValidState 3 500 rfl⟩

/-- Start state of the specification's overlap scenario: build mode engaged
on a Wall with Wood selected, twenty wood in the ledger, empty world. -/
def overlapStart : BuildingSystem :=
  { currentBuildMode := .wall, currentMaterial := .wood, isBuilding := true,
    ghostPosition := ⟨0, 0, 0⟩, ghostRotation := ⟨0, 0, 0⟩,
    placementValid := false, structures := [], resources := ⟨20, 0, 0⟩,
    effects := [] }

/-- The overlap scenario after aiming at the origin of a horizontal surface
and committing the Wall. -/
def afterWall : BuildingSystem :=
  ((overlapStart.update ⟨0, 0, 0⟩ ⟨0, 1, 0⟩).placeBuild 1 0).1

/-- The overlap scenario after switching to Floor and previewing the same
spot, whose bounding volume overlaps the committed Wall. -/
def floorPreview : BuildingSystem :=
  (afterWall.switchBuildMode .floor).update ⟨0, 0, 0⟩ ⟨0, 1, 0⟩

/-- The concrete facts of the overlap scenario: the Wall commit succeeds;
in the Floor preview the ledger still covers the cost, yet the ghost's
bounding volume intersects the Wall's, so the validation stored by the
preview is `false`, the Floor commit attempt is rejected, and exactly one
structure exists afterward. -/
def OverlapScenario : Prop :=
  ((overlapStart.update ⟨0, 0, 0⟩ ⟨0, 1, 0⟩).placeBuild 1 0).2 = true ∧
  costs floorPreview.currentBuildMode ≤
    floorPreview.resources.get floorPreview.currentMaterial ∧
  (floorPreview.structures.any fun st =>
    (worldBox floorPreview.currentBuildMode floorPreview.ghostPosition
      floorPreview.ghostRotation 1).intersects
      (worldBox st.type st.position st.rotation st.meshScale)) = true ∧
  floorPreview.placementValid = false ∧
  (floorPreview.placeBuild 2 0).2 = false ∧
  (floorPreview.placeBuild 2 0).1.structures.length = 1

/-- C4.  Whenever the ghost candidate's world axis-aligned bounding volume
(computed from its position and rotation) intersects an existing
structure's bounding volume (computed from its position, rotation and
scale), `checkPlacementValid` returns `false`; and in the
Wall-then-overlapping-Floor scenario the second validation fails with the
overlap check (resources were sufficient), so only one structure exists
afterward.  The quarter-yaw hypotheses delimit the configurations on which
the modelled `worldBox` is the exact `setFromObject` box; they cover every
rotation the subsystem can store (`calculateRotationFromNormal` produces
only `(0,0,0)` and `(0, π/2, 0)`), including rotated walls, as the witness
exercises. -/
theorem overlap_rejects_and_single_structure (s : BuildingSystem)
    (_hg : s.ghostRotation.isQuarterYaw = true)
    (_hs : ∀ st ∈ s.structures, st.rotation.isQuarterYaw = true)
    (h : ∃ st ∈ s.structures,
      (worldBox s.currentBuildMode s.ghostPosition s.ghostRotation
        1).intersects
        (worldBox st.type st.position st.rotation st.meshScale) = true) :
    s.checkPlacementValid = false ∧ OverlapScenario := by
  constructor
  · by_cases hres :
      s.resources.get s.currentMaterial < costs s.currentBuildMode
    · simp [BuildingSystem.checkPlacementValid, hres]
    · obtain ⟨st, hmem, hbox⟩ := h
      simp only [BuildingSystem.checkPlacementValid, if_neg hres,
        Bool.not_eq_false', List.any_eq_true]
      exact ⟨st, hmem, hbox⟩
  · refine ⟨?_, ?_, ?_, ?_, ?_, ?_⟩ <;>
      norm_num [floorPreview, afterWall, overlapStart, BuildingSystem.update,
        BuildingSystem.checkPlacementValid, BuildingSystem.placeBuild,
        BuildingSystem.switchBuildMode, createStructure, snapToGrid,
        calculateRotationFromNormal, jsRound, Resources.get, Resources.sub,
        costs, gridSize, worldBox_wall_origin, worldBox_floor_origin,
        worldBox_wall_rot_origin, Box3.intersects, materialProps]

/-- A preview state containing a Wall the subsystem rotated by
`(0, π/2, 0)` (as placed against an X-facing surface), with a Floor ghost
at the origin whose bounding volume overlaps the rotated Wall's
swapped-extent box. -/
def rotatedWallPreview : BuildingSystem :=
  { currentBuildMode := .floor, currentMaterial := .wood, isBuilding := true,
    ghostPosition := ⟨0, 0, 0⟩, ghostRotation := ⟨0, 0, 0⟩,
    placementValid := false,
    structures := [{ id := 1, type := .wall, material := .wood,
                     position := ⟨0, 0, 0⟩, rotation := ⟨0, 1/2, 0⟩,
                     hp := 150, maxHp := 150, buildTime := 4, builtAt := 0,
                     isBuilding := false, meshScale := 1 }],
    resources := ⟨20, 0, 0⟩, effects := [] }

/-- Closed witness for C4, applying the theorem to a state whose existing
Wall carries the `(0, π/2, 0)` rotation the subsystem produces — the
rotation handling of the bounding boxes is exercised, not just the
unrotated case. -/
theorem overlap_rejects_and_single_structure_witness :
    (rotatedWallPreview.ghostRotation.isQuarterYaw = true ∧
     (∀ st ∈ rotatedWallPreview.structures,
       st.rotation.isQuarterYaw = true) ∧
     (∃ st ∈ rotatedWallPreview.structures,
       (worldBox rotatedWallPreview.currentBuildMode
         rotatedWallPreview.ghostPosition rotatedWallPreview.ghostRotation
         1).intersects
         (worldBox st.type st.position st.rotation st.meshScale) = true)) ∧
    (rotatedWallPreview.checkPlacementValid = false ∧ OverlapScenario) :=
  ⟨⟨by norm_num [rotatedWallPreview, Euler.isQuarterYaw],
    by norm_num [rotatedWallPreview, Euler.isQuarterYaw],
    by norm_num [rotatedWallPreview, worldBox_floor_origin,
      worldBox_wall_rot_origin, Box3.intersects]⟩,
   overlap_rejects_and_single_structure rotatedWallPreview
     (by norm_num [rotatedWallPreview, Euler.isQuarterYaw])
     (by norm_num [rotatedWallPreview, Euler.isQuarterYaw])
     (by norm_num [rotatedWallPreview, worldBox_floor_origin,
        worldBox_wall_rot_origin, Box3.intersects])⟩

/-- Start state of the stale-validation scenario: fifteen wood in the
ledger — enough for one Wall, not two. -/
def staleStart : BuildingSystem :=
  { currentBuildMode := .wall, currentMaterial := .wood, isBuilding := true,
    ghostPosition := ⟨0, 0, 0⟩, ghostRotation := ⟨0, 0, 0⟩,
    placementValid := false, structures := [], resources := ⟨15, 0, 0⟩,
    effects := [] }

/-- The stale-validation scenario after one preview update and one
successful Wall commit (ledger now at 5, one Wall at the origin). -/
def afterFirstCommit : BuildingSystem :=
  ((staleStart.update ⟨0, 0, 0⟩ ⟨0, 1, 0⟩).placeBuild 1 0).1

/-- C10.  `placeBuild` performs no fresh validation at commit time — it
consults only the `placementValid` flag stored by the last preview update:
after one valid preview and one commit, a fresh validation of the same
placement would fail (the ledger is below the cost and the ghost overlaps
the new Wall), yet a second commit with no intervening preview update
still succeeds, debits the ledger to `-5`, and creates a second
(overlapping) structure. -/
theorem placeBuild_stale_validation :
    ((staleStart.update ⟨0, 0, 0⟩ ⟨0, 1, 0⟩).placeBuild 1 0).2 = true ∧
    afterFirstCommit.placementValid = true ∧
    afterFirstCommit.checkPlacementValid = false ∧
    (afterFirstCommit.placeBuild 2 100).2 = true ∧
    (afterFirstCommit.placeBuild 2 100).1.resources.wood = -5 ∧
    (afterFirstCommit.placeBuild 2 100).1.structures.length = 2 := by
  refine ⟨?_, ?_, ?_, ?_, ?_, ?_⟩ <;>
    norm_num [afterFirstCommit, staleStart, BuildingSystem.update,
      BuildingSystem.checkPlacementValid, BuildingSystem.placeBuild,
      createStructure, snapToGrid, calculateRotationFromNormal, jsRound,
      Resources.get, Resources.sub, costs, gridSize, worldBox_wall_origin,
      worldBox_floor_origin, worldBox_wall_rot_origin, Box3.intersects,
      materialProps]
